import Mathlib

/-!
Shallow embedding of the travel-agency Discord bot (Rust) for checking its
natural-language specification.

The definitions below are translated from the repository sources:
* `src/src/shared/structs/agent/mod.rs` (agents, models, fan-out executor,
  `build_llm_request`),
* `src/src/controller/discord/plan.rs` (planner validation loop, scheduler
  early return, transport tool-call loop, final-result splitter,
  `determine_language`, `handle_tool_call`),
* `src/src/shared/utility/google_maps.rs` (`get_latitude_and_longitude`),
* `src/src/shared/mod.rs` (constants).

Rust `String`s are Lean `String`s; `Vec<T>` is `List T`; `Option<T>` is
`Option T`; `anyhow::Result<T>` is `Except String T` (or `Option`);
`f32`/`f64` request parameters are modelled as exact rationals `ℚ`;
the `DashMap` context/geocode caches are association lists.  Network calls
are modelled by passing their outcomes in as explicit arguments (oracles).
-/

namespace TravelAgency

/-- `Agent` enum from `src/src/shared/structs/agent/mod.rs` (lines 65–73). -/
inductive Agent
  | Food
  | Transport
  | History
  | Modern
  | Nature
deriving DecidableEq, Repr

/-- `Language` enum from `src/src/shared/structs/agent/mod.rs` (lines 75–81). -/
inductive Language
  | English
  | Japanese
  | Chinese
  | Other
deriving DecidableEq, Repr

/-- `LanguageModel` enum from `src/src/shared/structs/agent/mod.rs`
(lines 83–118). -/
inductive LanguageModel
  | ChatGPT4o
  | GPT41
  | O3
  | Sonnet4
  | Opus4
  | Gemini25Pro
  | Grok3
  | Grok4
  | DeepSeekV3
  | DeepSeekR1
  | GLM4Plus
  | Step216k
  | QwenMax
  | Qwen3235BA22B
  | DoubaoSeed16
  | KimiLatest
  | KimiK2
  | MistralLarge
  | MiniMaxM1
  | Ernie45300BA47B
deriving DecidableEq, Repr

/-- `impl Display for Agent` from `src/src/shared/structs/agent/mod.rs`
(lines 165–177). -/
def agentDisplay : Agent → String
  | Agent.Food => "Food"
  | Agent.Transport => "Transport"
  | Agent.History => "History"
  | Agent.Modern => "Modern"
  | Agent.Nature => "Nature"

/-- The entries of `MODEL_NAME_MAP` from `src/src/shared/structs/agent/mod.rs`
(lines 29–54), with the model-name string constants of
`src/src/shared/mod.rs` inlined.  `Step216k` and `MiniMaxM1` are commented
out in the source and are accordingly absent here.  The `KIMI_K2` constant is
imported by the source but its definition is not part of the provided
sources; its (unknown) name string is written `"kimi-k2"` below, and no
theorem depends on that choice. -/
def MODEL_NAME_MAP : List (LanguageModel × String) :=
  [ (LanguageModel.ChatGPT4o, "chatgpt-4o-latest")
  , (LanguageModel.GPT41, "gpt-4.1")
  , (LanguageModel.O3, "o3")
  , (LanguageModel.Sonnet4, "anthropic/claude-sonnet-4")
  , (LanguageModel.Opus4, "anthropic/claude-opus-4")
  , (LanguageModel.Gemini25Pro, "google/gemini-2.5-pro")
  , (LanguageModel.Grok3, "x-ai/grok-3")
  , (LanguageModel.Grok4, "x-ai/grok-4")
  , (LanguageModel.DeepSeekV3, "deepseek-chat")
  , (LanguageModel.DeepSeekR1, "deepseek-reasoner")
  , (LanguageModel.GLM4Plus, "GLM-4-Plus")
  , (LanguageModel.QwenMax, "qwen/qwen-max")
  , (LanguageModel.Qwen3235BA22B, "qwen/qwen3-235b-a22b")
  , (LanguageModel.DoubaoSeed16, "doubao-seed-1-6-250615")
  , (LanguageModel.KimiLatest, "kimi-latest")
  , (LanguageModel.KimiK2, "kimi-k2")
  , (LanguageModel.MistralLarge, "mistralai/mistral-large-2411")
  , (LanguageModel.Ernie45300BA47B, "baidu/ernie-4.5-300b-a47b")
  ]

/-- `impl Display for LanguageModel` from `src/src/shared/structs/agent/mod.rs`
(lines 179–189): look the model up in `MODEL_NAME_MAP`, defaulting to the
empty string. -/
def modelDisplay (m : LanguageModel) : String :=
  (MODEL_NAME_MAP.lookup m).getD ""

/-- `TEMPERATURE_LOW` from `src/src/shared/mod.rs` line 14. -/
def TEMPERATURE_LOW : ℚ := 0.3

/-- `TEMPERATURE_MEDIUM` from `src/src/shared/mod.rs` line 15. -/
def TEMPERATURE_MEDIUM : ℚ := 0.7

/-- `TEMPERATURE_HIGH` from `src/src/shared/mod.rs` line 16. -/
def TEMPERATURE_HIGH : ℚ := 1.0

/-- `async_openai::types::ChatCompletionRequestProvider`, as used at
`src/src/shared/structs/agent/mod.rs` lines 436–439. -/
structure ChatCompletionRequestProvider where
  order : List String
  allow_fallbacks : Bool
deriving DecidableEq, Repr

/-- The fields of `CreateChatCompletionRequest` that `build_llm_request`
(`src/src/shared/structs/agent/mod.rs` lines 412–445) sets: the message
payload is opaque to the claims and is kept as a list of strings. -/
structure CreateChatCompletionRequest where
  model : String
  temperature : ℚ
  top_p : ℚ
  messages : List String
  provider : Option ChatCompletionRequestProvider
deriving DecidableEq, Repr

/-- The `let temperature = match model { … }` of `build_llm_request`
(`src/src/shared/structs/agent/mod.rs` lines 417–421). -/
def fanout_temperature : LanguageModel → ℚ
  | LanguageModel.KimiLatest => TEMPERATURE_LOW
  | LanguageModel.DeepSeekV3 => 1.8
  | _ => TEMPERATURE_HIGH

/-- The `let top_p = match model { … }` of `build_llm_request`
(`src/src/shared/structs/agent/mod.rs` lines 423–426). -/
def fanout_top_p : LanguageModel → ℚ
  | LanguageModel.DeepSeekV3 => 0.98
  | _ => 1.0

/-- `build_llm_request` from `src/src/shared/structs/agent/mod.rs`
(lines 412–445): per-model temperature, `top_p`, and the DeepSeek provider
pin for fan-out requests. -/
def build_llm_request (model : LanguageModel) (model_name : String)
    (messages : List String) : CreateChatCompletionRequest :=
  if model = LanguageModel.DeepSeekV3 ∨ model = LanguageModel.DeepSeekR1 then
    { model := model_name, temperature := fanout_temperature model,
      top_p := fanout_top_p model, messages := messages,
      provider := some { order := ["DeepSeek"], allow_fallbacks := false } }
  else
    { model := model_name, temperature := fanout_temperature model,
      top_p := fanout_top_p model, messages := messages, provider := none }

/-- The spec's notion of a "Kimi model": the two Kimi entries of the fan-out
model pool (`KimiLatest` and `KimiK2` in `MODEL_NAME_MAP`). -/
def isKimiModel : LanguageModel → Bool
  | LanguageModel.KimiLatest => true
  | LanguageModel.KimiK2 => true
  | _ => false

/-! ## Final-result splitter (`send_final_result_message`)

`src/src/controller/discord/plan.rs` lines 950–986.  Rust counts
`final_result.chars().count()`, i.e. Unicode code points; a Lean
`List Char` is exactly a list of code points, so the splitter is embedded
on `List Char`. -/

/-- The `while character_count > 0` drain loop of `send_final_result_message`
(`src/src/controller/discord/plan.rs` lines 959–969): take 1000 code points
while at least 1000 remain, else push the remainder and stop. -/
def drainChunks (s : List Char) : List (List Char) :=
  if s.length = 0 then []
  else if 1000 ≤ s.length then s.take 1000 :: drainChunks (s.drop 1000)
  else [s]
termination_by s.length
decreasing_by simp only [List.length_drop]; omega

/-- `send_final_result_message` from `src/src/controller/discord/plan.rs`
(lines 950–986), reduced to its pure content: the list of message chunks, in
the order they are posted to the thread. -/
def send_final_result_message (final_result : List Char) : List (List Char) :=
  if 1000 < final_result.length then drainChunks final_result
  else [final_result]

/-! ## Fan-out executor (`Taskable::execute`)

`src/src/shared/structs/agent/mod.rs` lines 268–356: one provider call per
`MODEL_NAME_MAP` entry, each wrapped in a timeout; the recorded string per
call and the filter that builds the survivor array. -/

/-- Outcome of one fan-out provider call, as seen by the `match result`
at `src/src/shared/structs/agent/mod.rs` lines 319–343: the timeout wrapper
returned `Ok` with the provider's `Ok(response)` or `Err(error)`, or the
timeout elapsed. -/
inductive CallOutcome
  | success (content : Option String)
  | apiError (e : String)
  | timeout
deriving DecidableEq, Repr

/-- `extract_response_content` from `src/src/shared/structs/agent/mod.rs`
(lines 447–453): `choices[0].message.content` defaulted to `""`. -/
def extract_response_content (content : Option String) : String :=
  content.getD ""

/-- The string recorded for one fan-out call
(`src/src/shared/structs/agent/mod.rs` lines 319–343): the extracted content
on success, the `"Failed to get response from model …"` message on a provider
error, and the `"{model} timed out …"` message on timeout. -/
def fanOutRecord (agent_type : Agent) (model : LanguageModel)
    (outcome : CallOutcome) : String :=
  match outcome with
  | CallOutcome.success content => extract_response_content content
  | CallOutcome.apiError e =>
      "Failed to get response from model " ++ modelDisplay model ++
        " when trying to complete a " ++ agentDisplay agent_type ++
        " task: " ++ e
  | CallOutcome.timeout =>
      modelDisplay model ++ " timed out when trying to complete a " ++
        agentDisplay agent_type ++ " task."

/-- Models Rust `str::starts_with` with a string pattern, on code points. -/
def strStartsWith (s pre : String) : Bool :=
  pre.toList.isPrefixOf s.toList

/-- The survivor array of `Taskable::execute`
(`src/src/shared/structs/agent/mod.rs` lines 347–354): map every per-model
result to its recorded string and drop the strings starting with `"Fail"`. -/
def fanOutSurvivors (agent_type : Agent)
    (outcomes : List (LanguageModel × CallOutcome)) : List String :=
  (outcomes.map (fun p => fanOutRecord agent_type p.1 p.2)).filter
    (fun s => ¬ strStartsWith s "Fail")

/-! ## Transport tool-call loop

`src/src/controller/discord/plan.rs` lines 534–628, the
`let mut retry_count = 0; loop { … }` inside `execute_plan`'s Transport
branch. -/

/-- What one iteration of the transport tool-call loop observes from its
environment (`src/src/controller/discord/plan.rs` lines 572–627):
* `toolFailed`: `handle_tool_call` returned `Err`, so `retry_count` is
  incremented and the iteration makes no provider call;
* `providerToolCalls`: `build_transport_agent_final_message` made one
  provider call whose `finish_reason` is `tool_calls`, so `retry_count` is
  incremented and the loop continues;
* `providerDone content`: one provider call whose `finish_reason` is not
  `tool_calls`; its `message.content` becomes the Transport context and the
  loop exits. -/
inductive ToolIterOutcome
  | toolFailed
  | providerToolCalls
  | providerDone (content : Option String)
deriving DecidableEq, Repr

/-- Whether an iteration outcome is a provider response with a
non-`tool_calls` finish reason. -/
def isProviderDone : ToolIterOutcome → Bool
  | ToolIterOutcome.providerDone _ => true
  | _ => false

/-- The transport tool-call loop of `execute_plan`
(`src/src/controller/discord/plan.rs` lines 534–628), with the environment's
response to iteration `i` given by `outcomes i`.  `budget` is
`MAX_TOOL_RETRY_COUNT - retry_count` (the loop breaks when
`retry_count >= MAX_TOOL_RETRY_COUNT`), `idx` is the current value of
`retry_count` (every outcome except `providerDone` increments it), and
`calls` counts the provider calls made so far.  Returns the Transport
context's content (`none` when the loop exits without producing a context)
and the total provider-call count. -/
def transportToolLoopGo (outcomes : Nat → ToolIterOutcome) :
    Nat → Nat → Nat → Option String × Nat
  | 0, _, calls => (none, calls)
  | budget + 1, idx, calls =>
      match outcomes idx with
      | ToolIterOutcome.toolFailed =>
          transportToolLoopGo outcomes budget (idx + 1) calls
      | ToolIterOutcome.providerToolCalls =>
          transportToolLoopGo outcomes budget (idx + 1) (calls + 1)
      | ToolIterOutcome.providerDone content => (content, calls + 1)

/-- The transport tool-call loop started at `retry_count = 0` with bound
`maxRetry = MAX_TOOL_RETRY_COUNT` (the constant is imported by the source
from `crate::shared` but not defined in the provided sources, so the bound
is kept as a parameter). -/
def transport_tool_loop (maxRetry : Nat) (outcomes : Nat → ToolIterOutcome) :
    Option String × Nat :=
  transportToolLoopGo outcomes maxRetry 0 0

/-! ## Planner (`orchestrate`)

`src/src/controller/discord/plan.rs` lines 202–317. -/

/-- `Task` from `src/src/shared/structs/agent/mod.rs` (lines 133–139). -/
structure Task where
  task_id : String
  agent : Agent
  dependencies : List String
  instruction : String
deriving DecidableEq, Repr

/-- `OrchestrationPlan` from `src/src/shared/structs/agent/mod.rs`
(lines 125–131). -/
structure OrchestrationPlan where
  analysis : String
  greeting_message : String
  synthesis_plan : String
  tasks : List Task
deriving DecidableEq, Repr

/-- Insertion step of the sort modelling Rust `Vec::sort` in `orchestrate`
(`src/src/controller/discord/plan.rs` line 293); only the membership of the
result matters to the validation. -/
def insertSorted (x : String) : List String → List String
  | [] => [x]
  | y :: ys => if x ≤ y then x :: y :: ys else y :: insertSorted x ys

/-- Models `all_dependencies.sort()` at `src/src/controller/discord/plan.rs`
line 293. -/
def sortStrings : List String → List String
  | [] => []
  | x :: xs => insertSorted x (sortStrings xs)

/-- Models `Vec::dedup` at `src/src/controller/discord/plan.rs` line 294:
remove consecutive duplicates. -/
def dedupAdjacent : List String → List String
  | [] => []
  | [a] => [a]
  | a :: b :: rest =>
      if a = b then dedupAdjacent (b :: rest)
      else a :: dedupAdjacent (b :: rest)

/-- The DAG validation of `orchestrate`
(`src/src/controller/discord/plan.rs` lines 287–305): collect every task's
dependencies, sort and dedup them, and check that each one occurs among the
`task_id`s of the plan.  Note the check compares against *all* task ids,
including the depending task's own id. -/
def planIsValid (p : OrchestrationPlan) : Bool :=
  let all_dependencies :=
    dedupAdjacent (sortStrings (p.tasks.flatMap (fun t => t.dependencies)))
  let all_task_ids := p.tasks.map (fun t => t.task_id)
  all_dependencies.all (fun dep => all_task_ids.contains dep)

/-- One planner provider response as consumed by the `loop` in `orchestrate`
(`src/src/controller/discord/plan.rs` lines 270–316): the API call erred
(`Err` branch, line 310), the returned content failed to parse as an
`OrchestrationPlan` (the `?` at line 285), or a parsed plan. -/
inductive PlannerResponse
  | apiError
  | parseError
  | plan (p : OrchestrationPlan)
deriving DecidableEq, Repr

/-- Result of `orchestrate`: a validated plan, a propagated error, or the
model artifact `exhausted` for when the supplied response stream runs out
(the real loop would simply issue another provider call). -/
inductive PlannerOutcome
  | ok (p : OrchestrationPlan)
  | error
  | exhausted
deriving DecidableEq, Repr

/-- The retry loop of `orchestrate` (`src/src/controller/discord/plan.rs`
lines 270–316) over the stream of provider responses: an API error or parse
error exits with an error; a plan that passes `planIsValid` is returned;
an invalid plan makes the loop retry on the next response. -/
def orchestrate : List PlannerResponse → PlannerOutcome
  | [] => PlannerOutcome.exhausted
  | PlannerResponse.apiError :: _ => PlannerOutcome.error
  | PlannerResponse.parseError :: _ => PlannerOutcome.error
  | PlannerResponse.plan p :: rest =>
      if planIsValid p then PlannerOutcome.ok p else orchestrate rest

/-! ## Scheduler early return and the surrounding plan flow

`src/src/controller/discord/plan.rs`: `execute_plan` lines 403–412 (the
empty-tasks early return precedes every effect of the function, in
particular posting the progress embed at lines 434–437), and `plan`
lines 106–135 (`if let Some(message_mutex) = maybe_message` gates the
synthesizer call, the record writes and the final-result messages). -/

/-- `Context` from `src/src/shared/structs/agent/mod.rs` (lines 153–158). -/
structure Context where
  task_id : String
  agent_type : Agent
  content : String
deriving DecidableEq, Repr

/-- The externally visible actions of the plan flow that the claims talk
about. -/
inductive PlanAction
  | postProgressEmbed
  | providerCall
  | synthesizeCall
  | insertRecord
  | sendFinalResult
deriving DecidableEq, Repr

/-- What `execute_plan` produces: the actions it performed, the returned
progress-message handle (`None` exactly when no progress embed exists) and
the collected contexts. -/
structure ExecuteResult where
  actions : List PlanAction
  message : Option Unit
  contexts : List Context
deriving DecidableEq, Repr

/-- The top-level shape of `execute_plan`
(`src/src/controller/discord/plan.rs` lines 403–689): the
`if orchestration.tasks.is_empty() { return Ok((None, vec![])); }` guard at
lines 410–412 runs before any effect; the behaviour of the non-empty branch
(posting the embed, launching workers, …) depends on the network and is
supplied by the environment as `nonempty_branch`. -/
def execute_plan (orchestration : OrchestrationPlan)
    (nonempty_branch : ExecuteResult) : ExecuteResult :=
  if orchestration.tasks.isEmpty then
    { actions := [], message := none, contexts := [] }
  else nonempty_branch

/-- The tail of the `plan` command after `execute_plan`
(`src/src/controller/discord/plan.rs` lines 106–135): the synthesizer call,
the record insertion and the final-result messages all sit inside
`if let Some(message_mutex) = maybe_message { … }`, so none of them happen
when `execute_plan` returned `None`.  `tail_actions` is what the `Some`
branch would perform. -/
def plan_flow_tail (r : ExecuteResult) (tail_actions : List PlanAction) :
    List PlanAction :=
  r.actions ++
    (match r.message with
     | some _ => tail_actions
     | none => [])

/-! ## Context insertion

All three insertion sites in `execute_plan`
(`src/src/controller/discord/plan.rs` lines 603–614, 632–642 and 645–655)
share the same shape: `choice.message.content.map(|s| { let ctx = Context
{ task_id, agent_type, content: s }; contexts.insert(task_id, ctx.clone());
ctx })`. -/

/-- One context-insertion step of `execute_plan`: given the shared map
(as an association list, most recent first) and the provider message's
`content`, produce the updated map and the optional `Context` exactly as the
`content.map(…)` + `DashMap::insert` in the source. -/
def insert_context (contexts : List (String × Context)) (task_id : String)
    (agent_type : Agent) (content : Option String) :
    List (String × Context) × Option Context :=
  match content with
  | none => (contexts, none)
  | some s =>
      let ctx : Context :=
        { task_id := task_id, agent_type := agent_type, content := s }
      ((task_id, ctx) :: contexts, some ctx)

/-! ## Geocoding memoization

`get_latitude_and_longitude` from `src/src/shared/utility/google_maps.rs`
(lines 14–67) and its caller `handle_tool_call` from
`src/src/controller/discord/plan.rs` (lines 988–1010).  The geocoding
service is modelled as a function `geo : String → α` from place names to
locations (latitude/longitude pairs stay opaque), and the state records the
`lat_lngs : DashMap<String, LatLng>` cache together with the log of names
actually sent to the external service. -/

/-- `TransferMethod` from `src/src/shared/structs/google_maps/mod.rs`
(lines 30–35). -/
inductive TransferMethod
  | DriveOrTaxi
  | PublicTransport
deriving DecidableEq, Repr

/-- `Route` from `src/src/shared/structs/google_maps/mod.rs` (lines 8–13).
Field names carry a trailing underscore because `from` and `by` are Lean
keywords. -/
structure Route where
  from_ : String
  to_ : String
  by_ : TransferMethod
deriving DecidableEq, Repr

/-- The geocoding cache (`lat_lngs`) plus the log of place names queried at
the external geocoding service. -/
structure GeoState (α : Type) where
  cache : List (String × α)
  queries : List String
deriving DecidableEq, Repr

/-- One cached geocoding lookup, the shape shared by the `from` and `to`
halves of `get_latitude_and_longitude`
(`src/src/shared/utility/google_maps.rs` lines 26–44 and 46–64): return the
cached location if the name is present, otherwise query the service, record
the query, and insert the result into the cache. -/
def geocodeOne {α : Type} (geo : String → α) (name : String)
    (st : GeoState α) : α × GeoState α :=
  match st.cache.lookup name with
  | some loc => (loc, st)
  | none =>
      let loc := geo name
      (loc, { cache := (name, loc) :: st.cache,
              queries := st.queries ++ [name] })

/-- `get_latitude_and_longitude` from
`src/src/shared/utility/google_maps.rs` (lines 14–67): geocode `route.from`,
then `route.to`, threading the cache. -/
def get_latitude_and_longitude {α : Type} (geo : String → α) (route : Route)
    (st : GeoState α) : (α × α) × GeoState α :=
  let fromStep := geocodeOne geo route.from_ st
  let toStep := geocodeOne geo route.to_ fromStep.2
  ((fromStep.1, toStep.1), toStep.2)

/-- The geocoding portion of `handle_tool_call`
(`src/src/controller/discord/plan.rs` lines 997–1010): a **fresh**
`lat_lngs = DashMap::new()` is created for this one invocation (line 999),
then every route of the transfer plan is geocoded in order.  Returns the
located endpoints and the final state (whose `queries` field lists the
names sent to the external service during this invocation). -/
def handle_tool_call_geocode {α : Type} (geo : String → α)
    (routes : List Route) : List (α × α) × GeoState α :=
  routes.foldl
    (fun acc route =>
      let step := get_latitude_and_longitude geo route acc.2
      (acc.1 ++ [step.1], step.2))
    ([], { cache := [], queries := [] })

/-- The external geocoding queries issued over a whole plan, given the
transfer plans of the successive `handle_tool_call` invocations the plan
performs (one per transport tool-call iteration): each invocation starts
from an empty cache. -/
def plan_geocode_queries {α : Type} (geo : String → α)
    (toolCalls : List (List Route)) : List String :=
  toolCalls.flatMap (fun routes => (handle_tool_call_geocode geo routes).2.queries)

/-! ## Language classifier (`determine_language`)

`src/src/controller/discord/plan.rs` lines 138–200.  The provider call's
outcome is passed in; the `serde_json::from_str::<LanguageTriageArguments>`
at line 192 is modelled by an executable parser for flat JSON objects with
string values (the shape the strict tool schema produces).  The model and
`serde_json` agree on every input a theorem below touches; in particular
both reject the empty string and both reject any input whose `language`
field is absent or not one of the four enum strings. -/

/-- The character `{`, written via its code point to keep string literals
brace-free. -/
def lbraceChar : Char := Char.ofNat 123

/-- The character `}`. -/
def rbraceChar : Char := Char.ofNat 125

/-- JSON insignificant whitespace. -/
def isJsonWs (c : Char) : Bool :=
  c = ' ' ∨ c = '\t' ∨ c = '\n' ∨ c = '\r'

/-- Skip insignificant whitespace. -/
def skipWs : List Char → List Char
  | [] => []
  | c :: rest => if isJsonWs c then skipWs rest else c :: rest

/-- Scan the body of a JSON string until the closing quote.  Escape
sequences are not modelled (none of the tool-schema enum strings contain
them); inputs using them fail to parse. -/
def parseJsonStringGo : List Char → List Char → Option (String × List Char)
  | [], _ => none
  | c :: rest, acc =>
      if c = '"' then some (String.mk acc.reverse, rest)
      else if c = '\\' then none
      else parseJsonStringGo rest (c :: acc)

/-- Parse a JSON string literal. -/
def parseJsonString : List Char → Option (String × List Char)
  | '"' :: rest => parseJsonStringGo rest []
  | _ => none

/-- Parse the members of a JSON object after the opening brace, as
`key : value` pairs with string values, separated by commas and closed by
`}`.  `fuel` bounds the recursion by the input length. -/
def parseMembersGo : Nat → List Char → Option (List (String × String) × List Char)
  | 0, _ => none
  | fuel + 1, cs =>
      match parseJsonString (skipWs cs) with
      | none => none
      | some (key, rest1) =>
          match skipWs rest1 with
          | ':' :: rest2 =>
              match parseJsonString (skipWs rest2) with
              | none => none
              | some (value, rest3) =>
                  match skipWs rest3 with
                  | ',' :: rest4 =>
                      (parseMembersGo fuel rest4).map
                        (fun p => ((key, value) :: p.1, p.2))
                  | c :: rest4 =>
                      if c = rbraceChar then some ([(key, value)], rest4)
                      else none
                  | [] => none
          | _ => none

/-- Parse a flat JSON object with string values. -/
def parseJsonObject (cs : List Char) : Option (List (String × String) × List Char) :=
  match skipWs cs with
  | c :: rest =>
      if c = lbraceChar then
        match skipWs rest with
        | d :: rest2 =>
            if d = rbraceChar then some ([], rest2)
            else parseMembersGo (rest.length + 1) rest
        | [] => none
      else none
  | [] => none

/-- Deserialization of the `Language` enum from its serde string form. -/
def languageOfString (s : String) : Option Language :=
  if s = "English" then some Language.English
  else if s = "Japanese" then some Language.Japanese
  else if s = "Chinese" then some Language.Chinese
  else if s = "Other" then some Language.Other
  else none

/-- `LanguageTriageArguments` from `src/src/shared/structs/agent/mod.rs`
(lines 120–123). -/
structure LanguageTriageArguments where
  language : Language
deriving DecidableEq, Repr

/-- Models `serde_json::from_str::<LanguageTriageArguments>` as used at
`src/src/controller/discord/plan.rs` line 192: the whole input must be one
JSON object whose `language` member is one of the four enum strings. -/
def parseLanguageTriageArguments (s : String) : Option LanguageTriageArguments :=
  match parseJsonObject s.toList with
  | none => none
  | some (members, rest) =>
      if skipWs rest = [] then
        (members.lookup "language").bind
          (fun v => (languageOfString v).map
            (fun l => { language := l }))
      else none

/-- A tool call's `function.arguments`, the only part of
`ChatCompletionMessageToolCall` that `determine_language` reads. -/
structure ChatToolCall where
  arguments : String
deriving DecidableEq, Repr

/-- The parts of a response choice that `determine_language` reads. -/
structure TriageMessage where
  content : Option String
  tool_calls : Option (List ChatToolCall)
deriving DecidableEq, Repr

/-- One choice of the classifier's chat response. -/
structure TriageChoice where
  message : TriageMessage
deriving DecidableEq, Repr

/-- The `res.choices.first().and_then(… tool_calls … first … arguments …)`
chain of `determine_language` (`src/src/controller/discord/plan.rs`
lines 181–189): the first choice's first tool call's `arguments`, when such
a tool call exists. -/
def triageArguments (choices : List TriageChoice) : Option String :=
  (choices.head?).bind (fun choice =>
    choice.message.tool_calls.bind (fun calls =>
      calls.head?.map (fun call => call.arguments)))

/-- `determine_language` from `src/src/controller/discord/plan.rs`
(lines 138–200), applied to the outcome of the classifier provider call
(lines 172–177): on `Err` (including timeout surfaced as an error by the
client) it logs and returns `Ok(Language::English)`; on `Ok` it extracts
the first choice's first tool call's `arguments` (defaulting to `""` via
`unwrap_or_default`), parses them as `LanguageTriageArguments` and
propagates any parse error with `?`. -/
def determine_language (response : Except String (List TriageChoice)) :
    Except String Language :=
  match response with
  | Except.error _ => Except.ok Language.English
  | Except.ok choices =>
      match parseLanguageTriageArguments ((triageArguments choices).getD "") with
      | some args => Except.ok args.language
      | none => Except.error "invalid language triage arguments"

/-! ## Auxiliary definitions used by the theorems -/

/-- Invariant of the geocoding state: no name was queried twice, a name has
been queried exactly when it is cached, and the cache stores exactly the
service's answer for each name. -/
def GeoInv {α : Type} (geo : String → α) (st : GeoState α) : Prop :=
  st.queries.Nodup ∧
  (∀ n, n ∈ st.queries ↔ (st.cache.lookup n).isSome) ∧
  (∀ n loc, st.cache.lookup n = some loc → loc = geo n)

/-- A planner output whose single task depends on its own `task_id`. -/
def selfDepPlan : OrchestrationPlan :=
  { analysis := "", greeting_message := "", synthesis_plan := "",
    tasks := [{ task_id := "t1", agent := Agent.Food,
                dependencies := ["t1"], instruction := "" }] }

/-- A planner output with a dangling dependency (`"t99"` is no task's id). -/
def danglingPlan : OrchestrationPlan :=
  { analysis := "", greeting_message := "", synthesis_plan := "",
    tasks := [{ task_id := "t1", agent := Agent.Food,
                dependencies := ["t99"], instruction := "" }] }

/-- A planner output whose dependencies all reference existing tasks. -/
def goodPlan : OrchestrationPlan :=
  { analysis := "", greeting_message := "", synthesis_plan := "",
    tasks := [{ task_id := "t1", agent := Agent.Food,
                dependencies := ["t2"], instruction := "" },
              { task_id := "t2", agent := Agent.Nature,
                dependencies := [], instruction := "" }] }

/-! ## Supporting lemmas -/

/-- Every chunk produced by the drain loop keeps its full prefix: the
concatenation of the chunks is the original string. -/
theorem drainChunks_flatten (s : List Char) : (drainChunks s).flatten = s := by
  rw [drainChunks]
  split
  · next h => simp [List.length_eq_zero.mp h]
  · split
    · next h =>
        have ih := drainChunks_flatten (s.drop 1000)
        simp [ih]
    · simp
termination_by s.length
decreasing_by simp only [List.length_drop]; omega

/-- Every chunk produced by the drain loop has at most 1000 code points. -/
theorem drainChunks_chunk_le (s : List Char) :
    ∀ c ∈ drainChunks s, c.length ≤ 1000 := by
  rw [drainChunks]
  split
  · simp
  · split
    · next h =>
        intro c hc
        rcases List.mem_cons.mp hc with rfl | hc
        · simp [List.length_take]
        · exact drainChunks_chunk_le (s.drop 1000) c hc
    · next h1 h2 =>
        intro c hc
        simp only [List.mem_singleton] at hc
        subst hc
        omega
termination_by s.length
decreasing_by simp only [List.length_drop]; omega

/-- The tool loop makes at most `budget` provider calls beyond `calls`. -/
theorem transportToolLoopGo_calls_le (outcomes : Nat → ToolIterOutcome) :
    ∀ (budget idx calls : Nat),
      (transportToolLoopGo outcomes budget idx calls).2 ≤ calls + budget := by
  intro budget
  induction budget with
  | zero => intro idx calls; simp [transportToolLoopGo]
  | succ b ih =>
      intro idx calls
      simp only [transportToolLoopGo]
      cases outcomes idx with
      | toolFailed => exact le_trans (ih (idx + 1) calls) (by omega)
      | providerToolCalls => exact le_trans (ih (idx + 1) (calls + 1)) (by omega)
      | providerDone content => simp

/-- If no iteration inside the budget window gets a non-`tool_calls` finish
reason, the loop produces no Transport context. -/
theorem transportToolLoopGo_no_context (outcomes : Nat → ToolIterOutcome) :
    ∀ (budget idx calls : Nat),
      (∀ j, idx ≤ j → j < idx + budget → isProviderDone (outcomes j) = false) →
      (transportToolLoopGo outcomes budget idx calls).1 = none := by
  intro budget
  induction budget with
  | zero => intro idx calls _; simp [transportToolLoopGo]
  | succ b ih =>
      intro idx calls h
      simp only [transportToolLoopGo]
      have hidx : isProviderDone (outcomes idx) = false := h idx le_rfl (by omega)
      cases hout : outcomes idx with
      | toolFailed =>
          exact ih (idx + 1) calls (fun j hj1 hj2 => h j (by omega) (by omega))
      | providerToolCalls =>
          exact ih (idx + 1) (calls + 1) (fun j hj1 hj2 => h j (by omega) (by omega))
      | providerDone content => rw [hout] at hidx; simp [isProviderDone] at hidx

/-- Insertion used by the sort model preserves membership. -/
theorem mem_insertSorted (x a : String) (l : List String) :
    a ∈ insertSorted x l ↔ a = x ∨ a ∈ l := by
  induction l with
  | nil => simp [insertSorted]
  | cons y ys ih =>
      simp only [insertSorted]
      split
      · simp [List.mem_cons]
      · simp only [List.mem_cons, ih]
        tauto

/-- Sorting preserves membership. -/
theorem mem_sortStrings (a : String) (l : List String) :
    a ∈ sortStrings l ↔ a ∈ l := by
  induction l with
  | nil => simp [sortStrings]
  | cons x xs ih => simp [sortStrings, mem_insertSorted, ih]

/-- Removing adjacent duplicates keeps every element. -/
theorem mem_dedupAdjacent : ∀ (l : List String) (a : String),
    a ∈ l → a ∈ dedupAdjacent l
  | [], a, h => by simp at h
  | [b], a, h => by simpa [dedupAdjacent] using h
  | b :: c :: rest, a, h => by
      simp only [dedupAdjacent]
      rcases List.mem_cons.mp h with rfl | h2
      · split
        · next heq => exact mem_dedupAdjacent (c :: rest) a (by rw [heq]; simp)
        · next hne => simp
      · split
        · next heq => exact mem_dedupAdjacent (c :: rest) a h2
        · next hne => exact List.mem_cons.mpr (Or.inr (mem_dedupAdjacent (c :: rest) a h2))

/-- A plan accepted by the source's validation has every referenced
dependency among the plan's task ids. -/
theorem planIsValid_sound (p : OrchestrationPlan) (h : planIsValid p = true) :
    ∀ t ∈ p.tasks, ∀ d ∈ t.dependencies, ∃ t' ∈ p.tasks, t'.task_id = d := by
  intro t ht d hd
  unfold planIsValid at h
  rw [List.all_eq_true] at h
  have hmem : d ∈ dedupAdjacent (sortStrings
      (p.tasks.flatMap (fun t => t.dependencies))) := by
    apply mem_dedupAdjacent
    rw [mem_sortStrings]
    exact List.mem_flatMap.mpr ⟨t, ht, hd⟩
  have hc := h d hmem
  rw [List.contains_eq_any_beq, List.any_eq_true] at hc
  obtain ⟨tid, htid, heq⟩ := hc
  obtain ⟨t', ht', rfl⟩ := List.mem_map.mp htid
  exact ⟨t', ht', (beq_iff_eq.mp heq).symm⟩

/-- `List.lookup` on a freshly consed association-list entry. -/
theorem lookup_cons_str {α : Type} (n k : String) (v : α) (l : List (String × α)) :
    ((k, v) :: l).lookup n = if n = k then some v else l.lookup n := by
  by_cases h : n = k
  · simp [List.lookup, h]
  · have hb : (n == k) = false := by simp [h]
    simp [List.lookup, hb, h]

/-- One cached lookup returns the service's answer and preserves the
geocoding invariant; in particular a cached name is not queried again. -/
theorem geocodeOne_spec {α : Type} (geo : String → α) (name : String)
    (st : GeoState α) (h : GeoInv geo st) :
    (geocodeOne geo name st).1 = geo name ∧ GeoInv geo (geocodeOne geo name st).2 := by
  obtain ⟨hnd, hiff, hval⟩ := h
  unfold geocodeOne
  cases hlk : st.cache.lookup name with
  | some loc =>
      exact ⟨hval name loc hlk, hnd, hiff, hval⟩
  | none =>
      have hnot : name ∉ st.queries := by
        intro hmem
        have := (hiff name).mp hmem
        rw [hlk] at this
        simp at this
      refine ⟨rfl, ?_, ?_, ?_⟩
      · simpa [List.nodup_append] using ⟨hnd, fun hmem => hnot hmem⟩
      · intro n
        simp only [List.mem_append, List.mem_singleton, lookup_cons_str]
        by_cases hn : n = name
        · simp [hn]
        · simp [hn, hiff n]
      · intro n loc
        simp only [lookup_cons_str]
        by_cases hn : n = name
        · intro hsome
          rw [if_pos hn] at hsome
          injection hsome with h1
          rw [hn, ← h1]
        · intro hsome
          rw [if_neg hn] at hsome
          exact hval n loc hsome

/-- Geocoding one route returns the service's answers for both endpoints
and preserves the invariant. -/
theorem get_latitude_and_longitude_spec {α : Type} (geo : String → α)
    (route : Route) (st : GeoState α) (h : GeoInv geo st) :
    (get_latitude_and_longitude geo route st).1 = (geo route.from_, geo route.to_)
  ∧ GeoInv geo (get_latitude_and_longitude geo route st).2 := by
  obtain ⟨h1f, h2f⟩ := geocodeOne_spec geo route.from_ st h
  obtain ⟨h1t, h2t⟩ := geocodeOne_spec geo route.to_ _ h2f
  constructor
  · simp [get_latitude_and_longitude, h1f, h1t]
  · simpa [get_latitude_and_longitude] using h2t

/-- The route fold of `handle_tool_call_geocode` preserves the geocoding
invariant and accumulates exactly the service answers per route. -/
theorem handle_tool_call_geocode_go {α : Type} (geo : String → α) :
    ∀ (routes : List Route) (acc : List (α × α)) (st : GeoState α),
      GeoInv geo st →
      GeoInv geo ((routes.foldl
        (fun acc route =>
          let step := get_latitude_and_longitude geo route acc.2
          (acc.1 ++ [step.1], step.2)) (acc, st)).2)
    ∧ (routes.foldl
        (fun acc route =>
          let step := get_latitude_and_longitude geo route acc.2
          (acc.1 ++ [step.1], step.2)) (acc, st)).1 =
        acc ++ routes.map (fun r => (geo r.from_, geo r.to_)) := by
  intro routes
  induction routes with
  | nil =>
      intro acc st h
      refine ⟨by simpa using h, by simp⟩
  | cons r rs ih =>
      intro acc st h
      obtain ⟨hv, hinv⟩ := get_latitude_and_longitude_spec geo r st h
      simp only [List.foldl_cons]
      obtain ⟨g1, g2⟩ := ih (acc ++ [(get_latitude_and_longitude geo r st).1])
        (get_latitude_and_longitude geo r st).2 hinv
      refine ⟨g1, ?_⟩
      rw [g2, hv]
      simp

/-! ## Claim theorems -/

/-- C1: evaluation of the fan-out recording at a timed-out call.  The claim
says every failed **or timed-out** provider call records a string beginning
with `"Fail"` and is dropped from the survivor array.  The code's error
branch does produce a `"Failed to get response …"` string, which is
dropped; but its timeout branch produces `"{model} timed out …"`, which
does not begin with `"Fail"` and therefore survives the filter, so the
survivor array is not exactly the successful outputs. -/
theorem fanout_timeout_string_survives_filter :
    fanOutRecord Agent.Food LanguageModel.KimiLatest CallOutcome.timeout =
      "kimi-latest timed out when trying to complete a Food task."
  ∧ strStartsWith
      (fanOutRecord Agent.Food LanguageModel.KimiLatest CallOutcome.timeout)
      "Fail" = false
  ∧ strStartsWith
      (fanOutRecord Agent.Food LanguageModel.GPT41 (CallOutcome.apiError "boom"))
      "Fail" = true
  ∧ fanOutSurvivors Agent.Food
      [(LanguageModel.Gemini25Pro, CallOutcome.success (some "itinerary")),
        (LanguageModel.KimiLatest, CallOutcome.timeout),
        (LanguageModel.GPT41, CallOutcome.apiError "boom")] =
      ["itinerary", "kimi-latest timed out when trying to complete a Food task."] := by
  decide

/-- C2: the transport tool-call loop makes at most `MAX_TOOL_RETRY_COUNT`
provider calls beyond the initial agent-synthesis call, and if no iteration
before the bound gets a non-`tool_calls` finish reason the loop exits
without producing a Transport context. -/
theorem transport_tool_loop_spec (maxRetry : Nat)
    (outcomes : Nat → ToolIterOutcome) :
    (transport_tool_loop maxRetry outcomes).2 ≤ maxRetry
  ∧ ((∀ j, j < maxRetry → isProviderDone (outcomes j) = false) →
      (transport_tool_loop maxRetry outcomes).1 = none) := by
  constructor
  · simpa using transportToolLoopGo_calls_le outcomes maxRetry 0 0
  · intro h
    exact transportToolLoopGo_no_context outcomes maxRetry 0 0
      (fun j _ hj => h j (by omega))

/-- Witness for C2 at `maxRetry = 3` and an environment whose provider
always answers with `finish_reason = tool_calls`. -/
theorem transport_tool_loop_spec_witness :
    (transport_tool_loop 3 (fun _ => ToolIterOutcome.providerToolCalls)).2 ≤ 3
  ∧ (transport_tool_loop 3 (fun _ => ToolIterOutcome.providerToolCalls)).1 = none :=
  ⟨(transport_tool_loop_spec 3 (fun _ => ToolIterOutcome.providerToolCalls)).1,
    (transport_tool_loop_spec 3 (fun _ => ToolIterOutcome.providerToolCalls)).2
      (fun _ _ => rfl)⟩

/-- C3 counterexample: a plan whose only task depends on its own `task_id`
passes the validation (the task's own id is among `all_task_ids`), so
`orchestrate` returns it from the **first** response without any retry —
contradicting the claim that a self-dependency forces a retry. -/
theorem planIsValid_accepts_self_dependency :
    planIsValid selfDepPlan = true
  ∧ orchestrate [PlannerResponse.plan selfDepPlan] =
      PlannerOutcome.ok selfDepPlan := by
  decide

/-- C3 amended: only a dangling reference (an id that is no task's
`task_id`) causes a retry; any plan `orchestrate` returns has every
referenced dependency equal to the `task_id` of some task of the plan
(possibly the depending task itself). -/
theorem orchestrate_spec (responses : List PlannerResponse) :
    (∀ p, orchestrate responses = PlannerOutcome.ok p →
      ∀ t ∈ p.tasks, ∀ d ∈ t.dependencies, ∃ t' ∈ p.tasks, t'.task_id = d)
  ∧ (∀ q rest, responses = PlannerResponse.plan q :: rest →
      planIsValid q = false → orchestrate responses = orchestrate rest) := by
  constructor
  · induction responses with
    | nil => intro p hp; simp [orchestrate] at hp
    | cons r rest ih =>
        intro p hp
        cases r with
        | apiError => simp [orchestrate] at hp
        | parseError => simp [orchestrate] at hp
        | plan q =>
            rw [show orchestrate (PlannerResponse.plan q :: rest) =
                (if planIsValid q then PlannerOutcome.ok q else orchestrate rest)
              from rfl] at hp
            by_cases hv : planIsValid q = true
            · rw [if_pos hv] at hp
              injection hp with hqp
              subst hqp
              exact planIsValid_sound _ hv
            · rw [if_neg hv] at hp
              exact ih p hp
  · intro q rest hr hv
    subst hr
    simp [orchestrate, hv]

/-- Witness for C3's amended theorem: a dangling response makes the loop
retry onto the next response, and the returned `goodPlan` has its `"t2"`
dependency realised by an existing task. -/
theorem orchestrate_spec_witness :
    (∃ t' ∈ goodPlan.tasks, t'.task_id = "t2")
  ∧ orchestrate [PlannerResponse.plan danglingPlan, PlannerResponse.plan goodPlan] =
      orchestrate [PlannerResponse.plan goodPlan] :=
  ⟨(orchestrate_spec [PlannerResponse.plan goodPlan]).1 goodPlan (by decide)
      { task_id := "t1", agent := Agent.Food, dependencies := ["t2"],
        instruction := "" } (by decide) "t2" (by decide),
    (orchestrate_spec
        [PlannerResponse.plan danglingPlan, PlannerResponse.plan goodPlan]).2
      danglingPlan [PlannerResponse.plan goodPlan] rfl (by decide)⟩

/-- C4: the sender splits `final_result` into chunks of at most 1000 code
points, their in-order concatenation is exactly `final_result`, a
1000-code-point result gives one message of 1000 code points, and a
1001-code-point result gives two messages of 1000 and 1 code points. -/
theorem send_final_result_message_spec (s : List Char) :
    (∀ c ∈ send_final_result_message s, c.length ≤ 1000)
  ∧ (send_final_result_message s).flatten = s
  ∧ (s.length = 1000 → (send_final_result_message s).map List.length = [1000])
  ∧ (s.length = 1001 → (send_final_result_message s).map List.length = [1000, 1]) := by
  refine ⟨?_, ?_, ?_, ?_⟩
  · intro c hc
    unfold send_final_result_message at hc
    split at hc
    · exact drainChunks_chunk_le s c hc
    · next h =>
        simp only [List.mem_singleton] at hc
        subst hc
        omega
  · unfold send_final_result_message
    split
    · exact drainChunks_flatten s
    · simp
  · intro h1000
    unfold send_final_result_message
    rw [if_neg (by omega)]
    simp [h1000]
  · intro h1001
    have hd : (s.drop 1000).length = 1 := by simp [List.length_drop, h1001]
    unfold send_final_result_message
    rw [if_pos (by omega)]
    rw [drainChunks]
    rw [if_neg (by omega), if_pos (by omega)]
    rw [drainChunks]
    rw [if_neg (by omega), if_neg (by omega)]
    simp [List.length_take, h1001, hd]

/-- Witness for C4 at a concrete 1001-code-point string. -/
theorem send_final_result_message_spec_witness :
    (List.replicate 1001 'a').length = 1001
  ∧ (send_final_result_message (List.replicate 1001 'a')).map List.length =
      [1000, 1] :=
  ⟨List.length_replicate 1001 'a',
    (send_final_result_message_spec (List.replicate 1001 'a')).2.2.2
      (List.length_replicate 1001 'a')⟩

/-- C5: with an empty `tasks[]` the scheduler returns `(None, [])` before
performing any action (in particular the progress embed is never posted),
and the plan flow's `if let Some` gate then suppresses the synthesizer
call, the record writes and the final-result messages. -/
theorem execute_plan_empty_tasks (o : OrchestrationPlan) (nb : ExecuteResult)
    (tail : List PlanAction) (h : o.tasks = []) :
    execute_plan o nb = { actions := [], message := none, contexts := [] }
  ∧ plan_flow_tail (execute_plan o nb) tail = [] := by
  have he : o.tasks.isEmpty = true := by simp [h]
  constructor
  · simp [execute_plan, he]
  · simp [execute_plan, he, plan_flow_tail]

/-- Witness for C5 at a concrete empty plan. -/
theorem execute_plan_empty_tasks_witness :
    execute_plan
        { analysis := "", greeting_message := "", synthesis_plan := "", tasks := [] }
        { actions := [PlanAction.postProgressEmbed], message := some (),
          contexts := [] } =
      { actions := [], message := none, contexts := [] }
  ∧ plan_flow_tail
      (execute_plan
        { analysis := "", greeting_message := "", synthesis_plan := "", tasks := [] }
        { actions := [PlanAction.postProgressEmbed], message := some (),
          contexts := [] })
      [PlanAction.synthesizeCall, PlanAction.insertRecord,
        PlanAction.sendFinalResult] = [] :=
  execute_plan_empty_tasks _ _ _ rfl

/-- C6 counterexample: `KimiK2` is a Kimi model of the fan-out pool, yet
`build_llm_request` gives it temperature `1.0` (`TEMPERATURE_HIGH`), not
the claimed `0.3` — only `KimiLatest` gets the low temperature. -/
theorem build_llm_request_kimi_k2_not_low_temp :
    isKimiModel LanguageModel.KimiK2 = true
  ∧ (build_llm_request LanguageModel.KimiK2 "kimi-k2" []).temperature = 1
  ∧ ¬ ((1 : ℚ) = (0.3 : ℚ)) := by
  refine ⟨rfl, ?_, by norm_num⟩
  simp [build_llm_request, fanout_temperature, TEMPERATURE_HIGH]
  norm_num

/-- C6 amended: the fan-out request carries temperature `0.3` for
`KimiLatest` (not for `KimiK2`, which gets `1.0` like the other models),
`1.8` for `DeepSeekV3` and `1.0` otherwise; `top_p` is `0.98` for
`DeepSeekV3` and `1.0` otherwise; exactly the `DeepSeekV3`/`DeepSeekR1`
requests pin `provider.order = ["DeepSeek"]` with
`allow_fallbacks = false`. -/
theorem build_llm_request_tuning (model : LanguageModel) (model_name : String)
    (messages : List String) :
    ((build_llm_request model model_name messages).temperature =
      if model = LanguageModel.KimiLatest then 0.3
      else if model = LanguageModel.DeepSeekV3 then 1.8 else 1)
  ∧ ((build_llm_request model model_name messages).top_p =
      if model = LanguageModel.DeepSeekV3 then 0.98 else 1)
  ∧ ((build_llm_request model model_name messages).provider =
      if model = LanguageModel.DeepSeekV3 ∨ model = LanguageModel.DeepSeekR1 then
        some { order := ["DeepSeek"], allow_fallbacks := false }
      else none) := by
  cases model <;>
    refine ⟨?_, ?_, ?_⟩ <;>
      simp [build_llm_request, fanout_temperature, fanout_top_p,
        TEMPERATURE_LOW, TEMPERATURE_HIGH] <;>
        norm_num

/-- C7 counterexample: the `lat_lngs` cache is created afresh inside each
`handle_tool_call` invocation, so the same place name appearing in two
tool calls of the same plan is sent to the geocoding service twice —
contradicting memoization scoped to the whole plan. -/
theorem plan_geocode_queries_duplicate_across_tool_calls :
    plan_geocode_queries (fun _ => (0 : Int))
        [[{ from_ := "Tokyo", to_ := "Osaka", by_ := TransferMethod.DriveOrTaxi }],
          [{ from_ := "Tokyo", to_ := "Kyoto", by_ := TransferMethod.DriveOrTaxi }]] =
      ["Tokyo", "Osaka", "Tokyo", "Kyoto"]
  ∧ ["Tokyo", "Osaka", "Tokyo", "Kyoto"].count "Tokyo" = 2 := by
  decide

/-- C7 amended: the memoization is scoped to a single `handle_tool_call`
invocation.  Within one invocation no place name is queried twice at the
external service (the query log has no duplicates), and every route's
endpoints observe exactly the service's `(lat,lng)` for their names, so
two endpoints with the same name observe the same location. -/
theorem handle_tool_call_geocode_memoized {α : Type} (geo : String → α)
    (routes : List Route) :
    (handle_tool_call_geocode geo routes).2.queries.Nodup
  ∧ (handle_tool_call_geocode geo routes).1 =
      routes.map (fun r => (geo r.from_, geo r.to_)) := by
  have hinit : GeoInv geo { cache := [], queries := [] } := by
    refine ⟨List.nodup_nil, ?_, ?_⟩
    · intro n; simp [List.lookup]
    · intro n loc h; simp [List.lookup] at h
  obtain ⟨h1, h2⟩ := handle_tool_call_geocode_go geo routes [] _ hinit
  exact ⟨h1.1, by simpa [handle_tool_call_geocode] using h2⟩

/-- C8: when the classifier's provider call fails (any error, including a
timeout surfaced as an error), `determine_language` returns
`Ok(Language::English)` — a successful, non-fatal result. -/
theorem determine_language_provider_failure (e : String) :
    determine_language (Except.error e) = Except.ok Language.English := rfl

/-- C9 counterexample: a provider choice whose `content` is `Some("")`
inserts a `Context` with an **empty** content string into the shared map,
contradicting the claimed invariant `content ≠ empty string` — the code
only guards against `None`, not against emptiness. -/
theorem insert_context_empty_content :
    insert_context [] "t1" Agent.Food (some "") =
      ([("t1", { task_id := "t1", agent_type := Agent.Food, content := "" })],
        some { task_id := "t1", agent_type := Agent.Food, content := "" })
  ∧ ({ task_id := "t1", agent_type := Agent.Food, content := "" } : Context).content
      = "" :=
  ⟨rfl, rfl⟩

/-- C9 amended: a `Context` is inserted exactly when the provider message's
`content` is present, and the inserted context carries that string
verbatim — which may be empty. -/
theorem insert_context_spec (m : List (String × Context)) (tid : String)
    (a : Agent) (c : Option String) :
    ((insert_context m tid a c).2.isSome ↔ c.isSome)
  ∧ (∀ s, c = some s →
      insert_context m tid a c =
        ((tid, { task_id := tid, agent_type := a, content := s }) :: m,
          some { task_id := tid, agent_type := a, content := s }))
  ∧ (c = none → insert_context m tid a c = (m, none)) := by
  cases c <;> simp [insert_context]

/-- Witness for C9's amended theorem at concrete inputs. -/
theorem insert_context_spec_witness :
    insert_context [] "t1" Agent.Food (some "hello") =
      ([("t1", { task_id := "t1", agent_type := Agent.Food, content := "hello" })],
        some { task_id := "t1", agent_type := Agent.Food, content := "hello" })
  ∧ insert_context [] "t2" Agent.Nature none = ([], none) :=
  ⟨(insert_context_spec [] "t1" Agent.Food (some "hello")).2.1 "hello" rfl,
    (insert_context_spec [] "t2" Agent.Nature none).2.2 rfl⟩

/-- C10: when the classifier's provider call succeeds but the response has
no tool call (so the extracted arguments default to `""`), or the first
tool call's arguments fail to decode as an object with a valid `language`
field, `determine_language` returns an error (which aborts the plan
command) instead of falling back to English. -/
theorem determine_language_strict (choices : List TriageChoice)
    (h : triageArguments choices = none ∨
      ∃ a, triageArguments choices = some a ∧
        parseLanguageTriageArguments a = none) :
    determine_language (Except.ok choices) =
      Except.error "invalid language triage arguments" := by
  have harg : parseLanguageTriageArguments ((triageArguments choices).getD "") =
      none := by
    rcases h with h | ⟨a, ha, hp⟩
    · rw [h]; rfl
    · rw [ha]; exact hp
  show (match parseLanguageTriageArguments ((triageArguments choices).getD "") with
    | some args => Except.ok args.language
    | none =>
        (Except.error "invalid language triage arguments" : Except String Language)) =
    Except.error "invalid language triage arguments"
  rw [harg]

/-- Witness for C10: an `Ok` response with no choices at all (hence no tool
call) makes `determine_language` fail. -/
theorem determine_language_strict_witness :
    determine_language (Except.ok []) =
      Except.error "invalid language triage arguments" :=
  determine_language_strict [] (Or.inl rfl)

end TravelAgency
